import Mathlib

/-!
Shallow embedding of the DocGenius document question-answering service.

The definitions below translate the Python sources:
* `app/utils/validators.py`   — input validation helpers
* `app/utils/exceptions.py`   — exception classes with HTTP status codes
* `app/services/file_service.py`         — Redis-backed file store
* `app/services/conversation_service.py` — Redis-backed conversation store
* `app/services/ai_service.py`           — Gemini client with retry decorator
* `app.py` (legacy variant)   — older route implementations
* `app/config.py`             — Flask app factory (upload size cap, 413 handler)

Redis is modelled as an explicit state record; `uuid4`, file hashes,
timestamps and the text-extraction libraries are modelled as inputs
(parameters) of the operations that consume them, since they are
environment effects.  Python strings are Lean `String`s (both indexed by
characters), machine floats only appear as the retry delays 1.0 * 2^n,
which are exact, so they are modelled as rationals.
-/

set_option maxRecDepth 10000

deriving instance DecidableEq for Except

namespace DocGenius

/-- Python whitespace characters recognised by `str.strip()` / `str.split()`
(ASCII subset, the only ones relevant here). -/
def isPySpace (c : Char) : Bool :=
  c = ' ' || c = '\t' || c = '\n' || c = '\r' || c = '\x0b' || c = '\x0c'

/-- Python `str.strip()`: drop leading and trailing whitespace. -/
def pyStrip (s : String) : String :=
  String.mk (((s.toList.dropWhile isPySpace).reverse.dropWhile isPySpace).reverse)

/-- Python `str.lower()` (ASCII case folding). -/
def pyLower (s : String) : String :=
  String.mk (s.toList.map Char.toLower)

/-- Python slicing `s[:n]`: the first `n` characters. -/
def pyTake (n : Nat) (s : String) : String :=
  String.mk (s.toList.take n)

/-- Worker for `pyWords`: `acc` holds the characters of the current word
in reverse; whitespace finishes a word, other characters extend it. -/
def pyWordsAux : List Char → List Char → List String
  | [], acc => if acc = [] then [] else [String.mk acc.reverse]
  | c :: rest, acc =>
    if isPySpace c then
      (if acc = [] then [] else [String.mk acc.reverse]) ++ pyWordsAux rest []
    else pyWordsAux rest (c :: acc)

/-- Python `str.split()` with no argument: split on whitespace runs,
discarding empty fields.  `len(s.split())` is the stored `word_count`. -/
def pyWords (s : String) : List String :=
  pyWordsAux s.toList []

/-- Substring test over character lists (used to model `re.search` on
literal patterns). -/
def containsSub (pat : List Char) : List Char → Bool
  | [] => pat.isPrefixOf ([] : List Char)
  | c :: rest => pat.isPrefixOf (c :: rest) || containsSub pat rest

/-- Index of the last occurrence of `c` in `l`, or `none`
(models Python `str.rfind`, which returns -1 when absent). -/
def lastIdx (l : List Char) (c : Char) : Option Nat :=
  (List.range l.length).foldl
    (fun acc i => if l.get? i = some c then some i else acc) none

/-- Python `os.path.splitext` (POSIX): split off the extension at the last
dot, provided it comes after the last `/` and the basename does not
consist solely of leading dots up to that point. -/
def splitext (s : String) : String × String :=
  let l := s.toList
  let sepIdx : Int := match lastIdx l '/' with
    | some i => (i : Int)
    | none => -1
  let dotIdx : Int := match lastIdx l '.' with
    | some i => (i : Int)
    | none => -1
  if sepIdx < dotIdx then
    let start : Nat := (sepIdx + 1).toNat
    let base := (l.drop start).take (dotIdx.toNat - start)
    if base.any (fun c => c ≠ '.') then
      (String.mk (l.take dotIdx.toNat), String.mk (l.drop dotIdx.toNat))
    else (s, "")
  else (s, "")

/-- Python `os.path.basename` (POSIX): everything after the last `/`. -/
def posixBasename (s : String) : String :=
  String.mk ((s.toList.reverse.takeWhile (fun c => c ≠ '/')).reverse)

/-! ## validators.py -/

/-- Result of `validate_question` (`validators.py`): the returned dict has
a `valid` flag and either an `error` or a `cleaned_question` field. -/
structure QuestionValidation where
  valid : Bool
  error : Option String
  cleaned_question : Option String
deriving DecidableEq, Repr

/-- Python `\w` word character (`[a-zA-Z0-9_]`, ASCII subset). -/
def isWordChar (c : Char) : Bool :=
  c.isAlphanum || c = '_'

/-- One suffix matches `<script[^>]*>.*?</script>` starting at its head. -/
def scriptTagAt (t : List Char) : Bool :=
  "<script".toList.isPrefixOf t &&
    (let r := (t.drop 7).dropWhile (fun c => c ≠ '>')
     match r with
     | [] => false
     | _ :: rest => containsSub "</script>".toList rest)

/-- One suffix matches `on\w+\s*=` starting at its head. -/
def eventHandlerAt : List Char → Bool
  | 'o' :: 'n' :: rest =>
    (rest.takeWhile isWordChar ≠ []) &&
      ((rest.dropWhile isWordChar).dropWhile isPySpace).head? = some '='
  | _ => false

/-- One suffix matches `eval\s*\(` starting at its head. -/
def evalCallAt (t : List Char) : Bool :=
  "eval".toList.isPrefixOf t &&
    ((t.drop 4).dropWhile isPySpace).head? = some '('

/-- Does any suffix of `l` satisfy `p`?  (models an unanchored `re.search`). -/
def anySuffix (p : List Char → Bool) : List Char → Bool
  | [] => p []
  | c :: rest => p (c :: rest) || anySuffix p rest

/-- `contains_harmful_content` (`validators.py`): scans the lowercased text
for the six harmful patterns (script tags, `javascript:` URLs, event
handlers, `eval(` calls, `document.`/`window.` access). -/
def containsHarmfulContent (text : String) : Bool :=
  if text = "" then false
  else
    let l := (pyLower text).toList
    anySuffix scriptTagAt l ||
    containsSub "javascript:".toList l ||
    anySuffix eventHandlerAt l ||
    anySuffix evalCallAt l ||
    containsSub "document.".toList l ||
    containsSub "window.".toList l

/-- `validate_question` (`validators.py`): reject empty input, strip
whitespace, enforce the 3..1000 length bounds on the stripped text, reject
harmful content, and return the stripped text as `cleaned_question`. -/
def validateQuestion (question : String) : QuestionValidation :=
  if question = "" then
    ⟨false, some "Question cannot be empty", none⟩
  else
    let q := pyStrip question
    if q.length < 3 then
      ⟨false, some "Question must be at least 3 characters long", none⟩
    else if q.length > 1000 then
      ⟨false, some "Question cannot exceed 1000 characters", none⟩
    else if containsHarmfulContent q then
      ⟨false, some "Question contains inappropriate content", none⟩
    else
      ⟨true, none, some q⟩

/-- `is_safe_filename` (`validators.py`): take the basename, reject empty
results, dangerous patterns (`..` and the characters `/ \ : * ? " < > |`),
names longer than 255 characters, and names starting with a dot. -/
def isSafeFilename (filename : String) : Bool :=
  if filename = "" then false
  else
    let f := posixBasename filename
    if f = "" then false
    else if containsSub ['.', '.'] f.toList
      || f.toList.contains '/' || f.toList.contains '\\'
      || f.toList.contains ':' || f.toList.contains '*'
      || f.toList.contains '?' || f.toList.contains '"'
      || f.toList.contains '<' || f.toList.contains '>'
      || f.toList.contains '|' then false
    else if f.length > 255 then false
    else if f.toList.head? = some '.' then false
    else true

/-- Maximum upload size: 16 MiB (`validators.py`, `file_service.py`,
`config.py` all use `16 * 1024 * 1024`). -/
def maxFileSize : Nat := 16 * 1024 * 1024

/-- Extensions accepted by `validate_file` and by the services. -/
def allowedExtensions : List String := [".pdf", ".txt", ".docx", ".pptx"]

/-- Result of `validate_file` (`validators.py`). -/
structure FileValidation where
  valid : Bool
  error : Option String
  file_size : Option Nat
  file_extension : Option String
deriving DecidableEq, Repr

/-- `validate_file` (`validators.py`): reject a missing filename, an
extension outside the allowed set, a size over 16 MiB, and an unsafe
filename; the filename is lowercased first. -/
def validateFile (filename : String) (size : Nat) : FileValidation :=
  if filename = "" then
    ⟨false, some "No file provided", none, none⟩
  else
    let fn := pyLower filename
    let ext := (splitext fn).2
    if ext ∉ allowedExtensions then
      ⟨false, some "Unsupported file type", none, none⟩
    else if size > maxFileSize then
      ⟨false, some "File size exceeds maximum allowed size (16MB)", none, none⟩
    else if isSafeFilename fn = false then
      ⟨false,
        some "Invalid filename. Please use only letters, numbers, spaces, hyphens, and underscores.",
        none, none⟩
    else
      ⟨true, none, some size, some ext⟩

/-! ## Redis store model (file_service.py, conversation_service.py) -/

/-- Fields of the Redis hash `file:{file_id}`
(written by `FileService.process_file`). -/
structure FileMeta where
  user_id : String
  file_name : String
  file_size : Nat
  file_extension : String
  file_hash : String
  word_count : Nat
  upload_timestamp : String
  mime_type : Option String
deriving DecidableEq, Repr

/-- Fields of the Redis hash `conversation:{conversation_id}`
(written by `ConversationService.save_conversation`). -/
structure ConvMeta where
  user_id : String
  file_id : String
  question : String
  answer : String
  timestamp : String
deriving DecidableEq, Repr

/-- The Redis keyspace used by the services: per-entity hashes plus
per-user (and per-file) index lists.  An absent key maps to `none` (for a
hash, `hgetall` then returns the empty, falsy dict) or to `[]` (for a
list). -/
structure RedisState where
  fileMeta : String → Option FileMeta
  fileContent : String → Option String
  userFiles : String → List String
  convMeta : String → Option ConvMeta
  userConvs : String → List String
  fileConvs : String → List String

/-- The empty keyspace. -/
def RedisState.empty : RedisState :=
  ⟨fun _ => none, fun _ => none, fun _ => [], fun _ => none, fun _ => [], fun _ => []⟩

/-- Typed form of the `FileProcessingException` / `AIServiceException`
classes (`exceptions.py`): a message plus an HTTP status code.
`FileProcessingException` defaults to 400, `AIServiceException` to 500. -/
structure ServiceError where
  message : String
  status_code : Nat
deriving DecidableEq, Repr

/-- Environment inputs of one `FileService.process_file` call: the
`uuid4()` identifier, the upload's name and byte size, the outcome of
`_extract_text` (a string, or the message of the `FileProcessingException`
it raised), the MD5 hash, the `utcnow` timestamp and the guessed MIME
type.  All are read from the outside world, so they are parameters. -/
structure UploadEnv where
  file_id : String
  file_name : String
  file_size : Nat
  extractResult : Except String String
  file_hash : String
  timestamp : String
  mime_type : Option String

/-- The success payload returned by `FileService.process_file`. -/
structure ProcessResult where
  file_id : String
  file_name : String
  file_size : Nat
  text_preview : String
  word_count : Nat
deriving DecidableEq, Repr

/-- `FileService.process_file`: reject files over 16 MiB, run extraction,
reject empty or whitespace-only extracted text, then write the metadata
hash, the content key and prepend (`lpush`) the id onto the user's index
list, and return the result payload with a 500-character preview. -/
def processFile (st : RedisState) (env : UploadEnv) (user_id : String) :
    Except ServiceError (ProcessResult × RedisState) :=
  let file_extension := pyLower (splitext env.file_name).2
  if env.file_size > maxFileSize then
    .error ⟨"File size exceeds maximum allowed size (16MB)", 400⟩
  else
    match env.extractResult with
    | .error msg =>
        .error ⟨"Failed to extract text from " ++ file_extension ++ " file: " ++ msg, 400⟩
    | .ok extracted_text =>
      if extracted_text = "" || pyStrip extracted_text = "" then
        .error ⟨"No text content could be extracted from the file", 400⟩
      else
        let word_count := (pyWords extracted_text).length
        let meta : FileMeta :=
          ⟨user_id, env.file_name, env.file_size, file_extension,
           env.file_hash, word_count, env.timestamp, env.mime_type⟩
        let st' : RedisState :=
          { st with
            fileMeta := fun k => if k = env.file_id then some meta else st.fileMeta k
            fileContent := fun k =>
              if k = env.file_id then some extracted_text else st.fileContent k
            userFiles := fun u =>
              if u = user_id then env.file_id :: st.userFiles u else st.userFiles u }
        .ok (⟨env.file_id, env.file_name, env.file_size,
              pyTake 500 extracted_text ++
                (if extracted_text.length > 500 then "..." else ""),
              word_count⟩, st')

/-- The dictionary returned by `FileService.get_file_content`. -/
structure FileContentOut where
  file_id : String
  file_name : String
  extracted_text : String
  word_count : Nat
  upload_timestamp : String
deriving DecidableEq, Repr

/-- `FileService.get_file_content`: return `None` when the hash is absent
or the stored owner differs from the caller, or when the content key is
missing or empty (falsy); otherwise assemble the output dict. -/
def getFileContent (st : RedisState) (file_id user_id : String) :
    Option FileContentOut :=
  match st.fileMeta file_id with
  | none => none
  | some meta =>
    if meta.user_id ≠ user_id then none
    else
      match st.fileContent file_id with
      | none => none
      | some text =>
        if text = "" then none
        else some ⟨file_id, meta.file_name, text, meta.word_count,
                   meta.upload_timestamp⟩

/-- `FileService.delete_file`: `False` when the hash is absent or the
owner differs; otherwise delete the hash and content keys, `lrem` the id
from the owner's index list, and return `True`. -/
def deleteFile (st : RedisState) (file_id user_id : String) :
    Bool × RedisState :=
  match st.fileMeta file_id with
  | none => (false, st)
  | some meta =>
    if meta.user_id ≠ user_id then (false, st)
    else
      (true,
       { st with
         fileMeta := fun k => if k = file_id then none else st.fileMeta k
         fileContent := fun k => if k = file_id then none else st.fileContent k
         userFiles := fun u =>
           if u = user_id then (st.userFiles u).filter (fun i => i ≠ file_id)
           else st.userFiles u })

/-- `ConversationService.save_conversation`: write the conversation hash
and prepend (`lpush`) the fresh id onto the user's and the file's index
lists.  The `uuid4()` id and the timestamp are parameters. -/
def saveConversation (st : RedisState) (conversation_id user_id file_id
    question answer timestamp : String) : RedisState :=
  let meta : ConvMeta := ⟨user_id, file_id, question, answer, timestamp⟩
  { st with
    convMeta := fun k => if k = conversation_id then some meta else st.convMeta k
    userConvs := fun u =>
      if u = user_id then conversation_id :: st.userConvs u else st.userConvs u
    fileConvs := fun f =>
      if f = file_id then conversation_id :: st.fileConvs f else st.fileConvs f }

/-- The dictionary returned by `ConversationService.get_conversation`. -/
structure ConversationOut where
  conversation_id : String
  file_id : String
  file_name : String
  question : String
  answer : String
  timestamp : String
deriving DecidableEq, Repr

/-- `ConversationService.get_conversation`: `None` when the hash is absent
or the stored owner differs; otherwise assemble the output dict, looking
up the linked file's name (falling back to "Unknown File"). -/
def getConversation (st : RedisState) (conversation_id user_id : String) :
    Option ConversationOut :=
  match st.convMeta conversation_id with
  | none => none
  | some c =>
    if c.user_id ≠ user_id then none
    else
      let file_name := match st.fileMeta c.file_id with
        | some m => m.file_name
        | none => "Unknown File"
      some ⟨conversation_id, c.file_id, file_name, c.question, c.answer,
            c.timestamp⟩

/-- `ConversationService.delete_conversation`: `False` when the hash is
absent or the owner differs; otherwise delete the hash, `lrem` the id from
the user's list and (when the stored `file_id` is non-empty) from the
file's list, and return `True`. -/
def deleteConversation (st : RedisState) (conversation_id user_id : String) :
    Bool × RedisState :=
  match st.convMeta conversation_id with
  | none => (false, st)
  | some c =>
    if c.user_id ≠ user_id then (false, st)
    else
      (true,
       { st with
         convMeta := fun k => if k = conversation_id then none else st.convMeta k
         userConvs := fun u =>
           if u = user_id then (st.userConvs u).filter (fun i => i ≠ conversation_id)
           else st.userConvs u
         fileConvs := fun f =>
           if c.file_id ≠ "" ∧ f = c.file_id then
             (st.fileConvs f).filter (fun i => i ≠ conversation_id)
           else st.fileConvs f })

/-! ## ai_service.py -/

/-- Python exceptions that can escape the undecorated `generate_answer`
and reach the `retry_on_rate_limit` wrapper: the provider's
`ResourceExhausted`, or an `AIServiceException` carrying a message and an
HTTP status code (`exceptions.py` defaults it to 500). -/
inductive PyExn where
  | resourceExhausted
  | aiServiceExn (message : String) (status_code : Nat)
deriving DecidableEq, Repr

/-- Outcome of one attempt against the Gemini provider, covering the
branches `generate_answer` distinguishes: a response whose first candidate
has text, a response with no usable candidates, and the caught provider
exception classes. -/
inductive ProviderOutcome where
  | ok (text : String)
  | noCandidates
  | resourceExhausted
  | invalidArgument
  | permissionDenied
  | apiError (message : String)
  | otherError
deriving DecidableEq, Repr

/-- Default model name (`GEMINI_MODEL` unset). -/
def modelName : String := "gemini-1.5-pro-latest"

/-- `AIService._create_user_prompt`: the f-string, with the document text
truncated to 8000 characters (the `#` remark inside the triple-quoted
f-string is part of the produced prompt). -/
def createUserPrompt (document_content question : String)
    (file_name : Option String) : String :=
  "Document Analysis Request\n\nDocument: " ++ file_name.getD "Unknown Document" ++
  "\nContent:\n" ++ pyTake 8000 document_content ++
  "  # Limit content to avoid token limits\n\nQuestion: " ++ question ++
  "\n\nPlease analyze the document and provide a comprehensive answer to the question based on the content above."

/-- `AIService._estimate_tokens`: `len(text) // 4`. -/
def estimateTokens (text : String) : Nat := text.length / 4

/-- The success payload of `generate_answer`. -/
structure AnswerOk where
  answer : String
  model_used : String
  token_count : Nat
  status_code : Nat
deriving DecidableEq, Repr

/-- The undecorated body of `AIService.generate_answer`: validate the two
inputs (raising `AIServiceException` with its default status 500 on empty
or whitespace-only text), then call the provider and translate each
provider exception class into an `AIServiceException` — in particular
`ResourceExhausted` into one with status 429.  The second component
records whether the provider was contacted on this attempt. -/
def generateAnswerBody (document_content question : String)
    (file_name : Option String) (outcome : ProviderOutcome) :
    Except PyExn AnswerOk × Bool :=
  if document_content = "" || pyStrip document_content = "" then
    (.error (.aiServiceExn "Document content is empty or invalid" 500), false)
  else if question = "" || pyStrip question = "" then
    (.error (.aiServiceExn "Question cannot be empty" 500), false)
  else
    match outcome with
    | .ok text =>
      let answer := pyStrip text
      let prompt := createUserPrompt document_content question file_name
      (.ok ⟨answer, modelName, estimateTokens (prompt ++ answer), 200⟩, true)
    | .noCandidates =>
      (.error (.aiServiceExn
        "An unexpected error occurred while processing your request" 500), true)
    | .resourceExhausted =>
      (.error (.aiServiceExn
        "Rate limit exceeded. Please try again later." 429), true)
    | .invalidArgument =>
      (.error (.aiServiceExn "Invalid input provided to AI service" 500), true)
    | .permissionDenied =>
      (.error (.aiServiceExn
        "AI service access denied. Please check API configuration." 500), true)
    | .apiError msg =>
      (.error (.aiServiceExn ("AI service error: " ++ msg) 500), true)
    | .otherError =>
      (.error (.aiServiceExn
        "An unexpected error occurred while processing your request" 500), true)

/-- Loop body of the `retry_on_rate_limit` decorator, recursing on the
number of loop iterations still available.  `attempt` is the Python loop
index; on an exception in the last iteration a `ResourceExhausted`
becomes a 429 `AIServiceException` and anything else is re-raised, while
in earlier iterations the wrapper sleeps `delay * 2^attempt` for
`ResourceExhausted` but only the constant `delay` for any other
exception.  The result carries the list of sleep durations and the count
of attempts that reached the provider.  The `remaining = 0` case is the
`return func(...)` line after the loop (reached only when `max_retries`
is 0). -/
def retryAux (delay : ℚ) (f : Nat → Except PyExn α × Bool) (attempt : Nat) :
    Nat → Except PyExn α × List ℚ × Nat
  | 0 =>
    let (r, called) := f attempt
    (r, [], if called then 1 else 0)
  | remaining + 1 =>
    let (r, called) := f attempt
    let n := if called then 1 else 0
    match r with
    | .ok a => (.ok a, [], n)
    | .error e =>
      if remaining = 0 then
        match e with
        | .resourceExhausted =>
          (.error (.aiServiceExn "Rate limit exceeded. Please try again later." 429),
           [], n)
        | _ => (.error e, [], n)
      else
        let d : ℚ := match e with
          | .resourceExhausted => delay * 2 ^ attempt
          | _ => delay
        let (r', ds, n') := retryAux delay f (attempt + 1) remaining
        (r', d :: ds, n + n')

/-- `retry_on_rate_limit(max_retries, delay)` applied to an attempt
function `f` (the attempt index selects that attempt's outcome). -/
def retryOnRateLimit (max_retries : Nat) (delay : ℚ)
    (f : Nat → Except PyExn α × Bool) : Except PyExn α × List ℚ × Nat :=
  retryAux delay f 0 max_retries

/-- The decorated `AIService.generate_answer` as called by the app:
`@retry_on_rate_limit(max_retries=3, delay=1.0)` around the body.
`provider n` is the provider's behaviour on the n-th attempt. -/
def generateAnswer (document_content question : String)
    (file_name : Option String) (provider : Nat → ProviderOutcome) :
    Except PyExn AnswerOk × List ℚ × Nat :=
  retryOnRateLimit 3 1
    (fun n => generateAnswerBody document_content question file_name (provider n))

/-! ## Upload endpoint pipeline (config.py + blueprints/api.py) -/

/-- `MAX_CONTENT_LENGTH` (`config.py`): 16 MiB. -/
def maxContentLength : Nat := 16 * 1024 * 1024

/-- Response of the upload endpoint, reduced to status and body fields. -/
inductive UploadOutcome where
  | failure (status : Nat) (error : String)
  | success (res : ProcessResult)
deriving DecidableEq, Repr

/-- The `POST /api/v1/files` pipeline.  The request-size gate models
Flask/Werkzeug enforcement of `MAX_CONTENT_LENGTH` (set to 16 MiB in
`config.py`), whose `RequestEntityTooLarge` is answered by the
`@app.errorhandler(413)` registered in `config.py` before the view body
runs; the rest is the `upload_file` view (`blueprints/api.py`):
`validate_file` errors become 400 responses, `DocGeniusException`s keep
their own status code.  The final component records whether control
reached `_extract_text` (inside `process_file`, after its size check). -/
def uploadEndpoint (st : RedisState) (contentLength : Nat) (env : UploadEnv)
    (user_id : String) : UploadOutcome × RedisState × Bool :=
  if contentLength > maxContentLength then
    (.failure 413 "File too large. Maximum size is 16MB.", st, false)
  else
    let v := validateFile env.file_name env.file_size
    if v.valid = false then
      (.failure 400 (v.error.getD ""), st, false)
    else
      match processFile st env user_id with
      | .error e =>
        (.failure e.status_code e.message, st, decide (env.file_size ≤ maxFileSize))
      | .ok (res, st') => (.success res, st', true)

/-! ## Legacy variant (src/app.py) -/

/-- One JSON record pushed onto `user:{user_id}:files` by the legacy
`process_file` route. -/
structure LegacyFileData where
  file_name : String
  extracted_text : String
deriving DecidableEq, Repr

/-- State of the legacy variant: the per-user file list.  Records are
appended with `rpush`, so `lrange 0 -1` yields them oldest first. -/
structure LegacyState where
  userFiles : String → List LegacyFileData

/-- The empty legacy keyspace. -/
def LegacyState.empty : LegacyState := ⟨fun _ => []⟩

/-- Response body of the legacy route (`message`/`error` plus the
`status_code` field the route puts in the JSON body). -/
structure LegacyResponse where
  message : String
  status_code : Nat
deriving DecidableEq, Repr

/-- The legacy `process_file` route (`src/app.py`): dispatch on the
lowercased extension; with no matching extractor answer a 400 body;
otherwise store `{file_name, extracted_text}` with `rpush` (append at the
tail) and answer success — the extractor's output is stored as-is, with
no emptiness check.  `extracted` is the string the legacy extractor
returned (those extractors return error strings rather than raising). -/
def legacyProcessFile (st : LegacyState) (file_name extracted user_id : String) :
    LegacyResponse × LegacyState :=
  let ext := pyLower (splitext file_name).2
  if ext ∉ allowedExtensions then
    (⟨"Unsupported file type. Please upload a PDF, TXT, DOCX, or PPTX file.", 400⟩, st)
  else
    (⟨"File saved and text extracted successfully.", 200⟩,
     ⟨fun u => if u = user_id then st.userFiles u ++ [⟨file_name, extracted⟩]
               else st.userFiles u⟩)

/-! ## Theorems -/

/-- C8: `validate_question` applies its 3..1000 length bounds to the
whitespace-stripped question, rejects whitespace-only or empty input, and
on success returns the stripped input as `cleaned_question`. -/
theorem validate_question_trims_and_bounds (q : String) :
    ((pyStrip q).length < 3 → (validateQuestion q).valid = false) ∧
    ((pyStrip q).length > 1000 → (validateQuestion q).valid = false) ∧
    (pyStrip q = "" → (validateQuestion q).valid = false) ∧
    ((validateQuestion q).valid = true →
      (validateQuestion q).cleaned_question = some (pyStrip q)) := by
  refine ⟨fun h => ?_, fun h => ?_, fun h => ?_, fun h => ?_⟩
  · simp only [validateQuestion]
    split_ifs with h1 h2 h3 h4 <;> first | rfl | exact absurd h h2
  · simp only [validateQuestion]
    split_ifs with h1 h2 h3 h4 <;> first | rfl | exact absurd h h3
  · simp only [validateQuestion]
    split_ifs with h1 h2 h3 h4 <;>
      first
        | rfl
        | exact absurd (show (pyStrip q).length < 3 by rw [h]; decide) h2
  · simp only [validateQuestion] at h ⊢
    split_ifs at h ⊢ <;> simp_all

/-- C8 witness: a padded question is cleaned to its stripped form. -/
theorem validate_question_trims_and_bounds_witness :
    (validateQuestion "  What is DocGenius?  ").cleaned_question =
      some (pyStrip "  What is DocGenius?  ") :=
  (validate_question_trims_and_bounds "  What is DocGenius?  ").2.2.2 (by decide)

/-- Safety guarantees that `is_safe_filename` actually enforces, stated of
a candidate basename `b`. -/
def SafeBasenameProps (b : String) : Prop :=
  b ≠ "" ∧ containsSub ['.', '.'] b.toList = false ∧
  b.toList.contains '/' = false ∧ b.toList.contains '\\' = false ∧
  b.toList.contains ':' = false ∧ b.toList.contains '*' = false ∧
  b.toList.contains '?' = false ∧ b.toList.contains '"' = false ∧
  b.toList.contains '<' = false ∧ b.toList.contains '>' = false ∧
  b.toList.contains '|' = false ∧ b.length ≤ 255 ∧ b.toList.head? ≠ some '.'

/-- C10 counterexample: `is_safe_filename` accepts `"tmp/evil.txt"`, a
filename that does contain the path separator `/`, because the dangerous
patterns are only checked against the basename. -/
theorem is_safe_filename_accepts_separator :
    isSafeFilename "tmp/evil.txt" = true ∧
    "tmp/evil.txt".toList.contains '/' = true := by decide

/-- C10 (amended): every filename accepted by `is_safe_filename` has a
basename (the part after the last `/`) that is non-empty, free of `..`
and of the characters `/ \ : * ? " < > |`, at most 255 characters long and
not starting with a dot; `validate_file` applies this check to the
lowercased filename. -/
theorem is_safe_filename_basename_props :
    (∀ f, isSafeFilename f = true → SafeBasenameProps (posixBasename f)) ∧
    (∀ name size, (validateFile name size).valid = true →
      isSafeFilename (pyLower name) = true) := by
  constructor
  · intro f h
    unfold isSafeFilename at h
    unfold SafeBasenameProps
    split_ifs at h <;> simp_all <;> omega
  · intro name size h
    unfold validateFile at h
    by_cases h1 : name = "" <;>
    by_cases h2 : (splitext (pyLower name)).2 ∈ allowedExtensions <;>
    by_cases h3 : size > maxFileSize <;>
    by_cases h4 : isSafeFilename (pyLower name) = false <;>
    simp_all

/-- C10 witness: a plain accepted name satisfies the basename guarantees,
and a mixed-case valid upload passes the filename safety check. -/
theorem is_safe_filename_basename_props_witness :
    SafeBasenameProps (posixBasename "report.txt") ∧
    isSafeFilename (pyLower "Report.TXT") = true :=
  ⟨is_safe_filename_basename_props.1 "report.txt" (by decide),
   is_safe_filename_basename_props.2 "Report.TXT" 5 (by decide)⟩

/-- C1: ownership isolation.  Whenever a stored file or conversation
record's owner differs from the caller, `get_file_content` and
`get_conversation` return not-found, and `delete_file` and
`delete_conversation` return `False` and leave the store unchanged, so
another user's record data is never returned and never deleted. -/
theorem ownership_isolation :
    (∀ st fid uid m, st.fileMeta fid = some m → m.user_id ≠ uid →
      getFileContent st fid uid = none ∧ deleteFile st fid uid = (false, st)) ∧
    (∀ st cid uid c, st.convMeta cid = some c → c.user_id ≠ uid →
      getConversation st cid uid = none ∧
        deleteConversation st cid uid = (false, st)) := by
  constructor
  · intro st fid uid m hm hne
    unfold getFileContent deleteFile
    rw [hm]
    simp [hne]
  · intro st cid uid c hc hne
    unfold getConversation deleteConversation
    rw [hc]
    simp [hne]

/-- Sample store: user "alice" owns file "f1" and conversation "c1". -/
def stAlice : RedisState where
  fileMeta := fun k =>
    if k = "f1" then some ⟨"alice", "notes.txt", 5, ".txt", "h0", 2, "t0", some "text/plain"⟩
    else none
  fileContent := fun k => if k = "f1" then some "hello world" else none
  userFiles := fun u => if u = "alice" then ["f1"] else []
  convMeta := fun k =>
    if k = "c1" then some ⟨"alice", "f1", "what?", "this", "t1"⟩ else none
  userConvs := fun u => if u = "alice" then ["c1"] else []
  fileConvs := fun f => if f = "f1" then ["c1"] else []

/-- C1 witness: user "bob" can neither read nor delete "alice"'s file or
conversation. -/
theorem ownership_isolation_witness :
    (getFileContent stAlice "f1" "bob" = none ∧
      deleteFile stAlice "f1" "bob" = (false, stAlice)) ∧
    (getConversation stAlice "c1" "bob" = none ∧
      deleteConversation stAlice "c1" "bob" = (false, stAlice)) :=
  ⟨ownership_isolation.1 stAlice "f1" "bob" _ rfl (by decide),
   ownership_isolation.2 stAlice "c1" "bob" _ rfl (by decide)⟩

/-- Inversion helper: a successful `processFile` call determines the
extracted text, the result payload and the new store. -/
lemma processFile_ok_spec (st : RedisState) (env : UploadEnv) (uid : String)
    (res : ProcessResult) (st' : RedisState)
    (h : processFile st env uid = .ok (res, st')) :
    ∃ text, env.extractResult = .ok text ∧
      env.file_size ≤ maxFileSize ∧
      text ≠ "" ∧ pyStrip text ≠ "" ∧
      res = ⟨env.file_id, env.file_name, env.file_size,
             pyTake 500 text ++ (if text.length > 500 then "..." else ""),
             (pyWords text).length⟩ ∧
      st' = { st with
              fileMeta := fun k =>
                if k = env.file_id then
                  some ⟨uid, env.file_name, env.file_size,
                        pyLower (splitext env.file_name).2, env.file_hash,
                        (pyWords text).length, env.timestamp, env.mime_type⟩
                else st.fileMeta k
              fileContent := fun k =>
                if k = env.file_id then some text else st.fileContent k
              userFiles := fun u =>
                if u = uid then env.file_id :: st.userFiles u
                else st.userFiles u } := by
  unfold processFile at h
  by_cases hsz : env.file_size > maxFileSize
  · simp [hsz] at h
  · rw [if_neg hsz] at h
    cases hex : env.extractResult with
    | error msg => simp [hex] at h
    | ok text =>
      simp only [hex] at h
      by_cases hemp : (text = "" || pyStrip text = "") = true
      · rw [if_pos hemp] at h; exact absurd h (by simp)
      · rw [if_neg hemp] at h
        injection h with hpair
        obtain ⟨h1, h2⟩ := Prod.ext_iff.mp hpair
        simp only [Bool.or_eq_true, decide_eq_true_eq, not_or] at hemp
        exact ⟨text, rfl, by omega, hemp.1, hemp.2, h1.symm, h2.symm⟩

/-- C5: round-trip.  After a successful `process_file`, `get_file_content`
with the returned `file_id` and the owning `user_id` yields the saved
extracted text and metadata; `delete_file` with that pair succeeds, and a
subsequent `get_file_content` returns not-found. -/
theorem processFile_roundtrip (st : RedisState) (env : UploadEnv)
    (uid : String) (res : ProcessResult) (st' : RedisState)
    (h : processFile st env uid = .ok (res, st')) :
    ∃ text, env.extractResult = .ok text ∧
      res.file_id = env.file_id ∧
      getFileContent st' env.file_id uid =
        some ⟨env.file_id, env.file_name, text, (pyWords text).length,
              env.timestamp⟩ ∧
      (deleteFile st' env.file_id uid).1 = true ∧
      getFileContent (deleteFile st' env.file_id uid).2 env.file_id uid =
        none := by
  obtain ⟨text, hex, _, hne, _, hres, hst⟩ := processFile_ok_spec st env uid res st' h
  subst hres hst
  refine ⟨text, hex, rfl, ?_, ?_, ?_⟩
  · unfold getFileContent
    simp [hne]
  · unfold deleteFile
    simp
  · unfold deleteFile getFileContent
    simp

/-- Upload environment of the witness scenario: a small text file whose
extraction yields "hello world". -/
def env0 : UploadEnv :=
  ⟨"f-new", "notes.txt", 5, .ok "hello world", "h0", "t0", some "text/plain"⟩

/-- Result payload that `processFile` produces for `env0`. -/
def res0 : ProcessResult := ⟨"f-new", "notes.txt", 5, "hello world", 2⟩

/-- Store produced by processing `env0` for "alice" on the empty store. -/
def st0 : RedisState :=
  { RedisState.empty with
    fileMeta := fun k =>
      if k = "f-new" then
        some ⟨"alice", "notes.txt", 5, ".txt", "h0", 2, "t0", some "text/plain"⟩
      else RedisState.empty.fileMeta k
    fileContent := fun k =>
      if k = "f-new" then some "hello world" else RedisState.empty.fileContent k
    userFiles := fun u =>
      if u = "alice" then ["f-new"] else RedisState.empty.userFiles u }

/-- C5 witness: the round-trip properties hold for the concrete upload
`env0` by "alice" on the empty store. -/
theorem processFile_roundtrip_witness :
    ∃ text, env0.extractResult = .ok text ∧
      res0.file_id = env0.file_id ∧
      getFileContent st0 env0.file_id "alice" =
        some ⟨env0.file_id, env0.file_name, text, (pyWords text).length,
              env0.timestamp⟩ ∧
      (deleteFile st0 env0.file_id "alice").1 = true ∧
      getFileContent (deleteFile st0 env0.file_id "alice").2 env0.file_id
        "alice" = none :=
  processFile_roundtrip RedisState.empty env0 "alice" res0 st0 rfl

/-- C9: for every successfully processed upload, the returned
`text_preview` is the first 500 characters of the stored extracted text,
with "..." appended exactly when the extracted text is longer than 500
characters. -/
theorem text_preview_spec (st : RedisState) (env : UploadEnv) (uid : String)
    (res : ProcessResult) (st' : RedisState)
    (h : processFile st env uid = .ok (res, st')) :
    ∃ text, st'.fileContent env.file_id = some text ∧
      res.text_preview =
        pyTake 500 text ++ (if text.length > 500 then "..." else "") := by
  obtain ⟨text, _, _, _, _, hres, hst⟩ := processFile_ok_spec st env uid res st' h
  subst hres hst
  exact ⟨text, by simp, rfl⟩

/-- C9 witness: the preview of the concrete upload `env0` equals its
short extracted text with no ellipsis. -/
theorem text_preview_spec_witness :
    ∃ text, st0.fileContent env0.file_id = some text ∧
      res0.text_preview =
        pyTake 500 text ++ (if text.length > 500 then "..." else "") :=
  text_preview_spec RedisState.empty env0 "alice" res0 st0 rfl

/-- C6 counterexample: the legacy `process_file` route (`src/app.py`)
reports success (status 200) for an upload whose extraction yielded the
empty string, and stores the record with empty `extracted_text`. -/
theorem legacy_stores_empty_extraction :
    (legacyProcessFile LegacyState.empty "empty.txt" "" "alice").1 =
      ⟨"File saved and text extracted successfully.", 200⟩ ∧
    (legacyProcessFile LegacyState.empty "empty.txt" "" "alice").2.userFiles
      "alice" = [⟨"empty.txt", ""⟩] := by
  constructor
  · rfl
  · rfl

/-- C6 (amended): `FileService.process_file` preserves the invariant that
every stored extracted text is non-empty and not whitespace-only, and an
extraction yielding empty or whitespace-only text makes it raise an error
(so nothing is stored); the legacy `src/app.py` route, however, stores
the extractor's output without any emptiness check. -/
theorem stored_extracted_text_nonempty :
    (∀ st env uid res st', processFile st env uid = .ok (res, st') →
      (∀ id t, st.fileContent id = some t → pyStrip t ≠ "") →
      ∀ id t, st'.fileContent id = some t → pyStrip t ≠ "") ∧
    (∀ st env uid t, env.extractResult = .ok t → pyStrip t = "" →
      env.file_size ≤ maxFileSize →
      processFile st env uid =
        .error ⟨"No text content could be extracted from the file", 400⟩) := by
  constructor
  · intro st env uid res st' h hinv id t
    obtain ⟨text, _, _, _, hns, _, hst⟩ := processFile_ok_spec st env uid res st' h
    subst hst
    simp only []
    by_cases hid : id = env.file_id
    · rw [if_pos hid]
      intro ht
      cases ht
      exact hns
    · rw [if_neg hid]
      exact hinv id t
  · intro st env uid t hex hws hsz
    unfold processFile
    rw [if_neg (by omega)]
    simp only [hex]
    rw [if_pos (by simp [hws])]

/-- C6 witness: on a store satisfying the invariant, processing `env0`
keeps it, and a whitespace-only extraction is rejected with the
no-text-content error. -/
theorem stored_extracted_text_nonempty_witness :
    (∀ id t, st0.fileContent id = some t → pyStrip t ≠ "") ∧
    processFile RedisState.empty ⟨"f2", "blank.txt", 3, .ok " \n ", "h1", "t1", some "text/plain"⟩ "alice" =
      .error ⟨"No text content could be extracted from the file", 400⟩ :=
  ⟨stored_extracted_text_nonempty.1 RedisState.empty env0 "alice" res0 st0 rfl
    (fun id t ht => by simp [RedisState.empty] at ht),
   stored_extracted_text_nonempty.2 RedisState.empty
    ⟨"f2", "blank.txt", 3, .ok " \n ", "h1", "t1", some "text/plain"⟩ "alice"
    " \n " rfl (by decide) (by decide)⟩

/-- C7 counterexample: the legacy route appends with `rpush`, so after
saving record A then record B the per-user list is `[A, B]` — the head of
the index is the oldest record, not the most recent one. -/
theorem legacy_appends_to_index :
    ((legacyProcessFile
        (legacyProcessFile LegacyState.empty "a.txt" "textA" "u").2
        "b.txt" "textB" "u").2.userFiles "u" =
      [⟨"a.txt", "textA"⟩, ⟨"b.txt", "textB"⟩]) ∧
    ((legacyProcessFile
        (legacyProcessFile LegacyState.empty "a.txt" "textA" "u").2
        "b.txt" "textB" "u").2.userFiles "u").head? ≠
      some ⟨"b.txt", "textB"⟩ := by
  constructor
  · rfl
  · decide

/-- C7 (amended): `FileService.process_file` and
`ConversationService.save_conversation` prepend the fresh identifier to
the owning user's index list (`lpush`), so those per-user indexes list
identifiers most-recent-first; the legacy `src/app.py` route instead
appends the record at the tail (`rpush`), oldest-first. -/
theorem save_prepends_user_index :
    (∀ st env uid res st', processFile st env uid = .ok (res, st') →
      st'.userFiles uid = env.file_id :: st.userFiles uid) ∧
    (∀ st cid uid fid q a ts,
      (saveConversation st cid uid fid q a ts).userConvs uid =
        cid :: st.userConvs uid) := by
  constructor
  · intro st env uid res st' h
    obtain ⟨text, _, _, _, _, _, hst⟩ := processFile_ok_spec st env uid res st' h
    subst hst
    simp
  · intro st cid uid fid q a ts
    unfold saveConversation
    simp

/-- C7 witness: the concrete upload `env0` and a concrete conversation
save both land at the head of the owner's index. -/
theorem save_prepends_user_index_witness :
    st0.userFiles "alice" = env0.file_id :: RedisState.empty.userFiles "alice" ∧
    (saveConversation st0 "c9" "alice" "f-new" "why?" "because" "t2").userConvs
      "alice" = "c9" :: st0.userConvs "alice" :=
  ⟨save_prepends_user_index.1 RedisState.empty env0 "alice" res0 st0 rfl,
   save_prepends_user_index.2 st0 "c9" "alice" "f-new" "why?" "because" "t2"⟩

/-- Evaluation helper: three retry iterations over an attempt function
that always fails with the same `AIServiceException`. -/
lemma retryAux_const_error (delay : ℚ) (f : Nat → Except PyExn α × Bool)
    (msg : String) (code : Nat) (called : Bool)
    (hf : ∀ n, f n = (.error (.aiServiceExn msg code), called)) (attempt : Nat) :
    retryAux delay f attempt 3 =
      (.error (.aiServiceExn msg code), [delay, delay],
       if called then 3 else 0) := by
  simp [retryAux, hf]
  cases called <;> rfl

/-- C2 counterexample: with the provider rate-limiting every attempt, the
client's sleeps are the constant base delay `[1, 1]`, not the exponential
`[1 * 2 ^ 0, 1 * 2 ^ 1] = [1, 2]` the claim states. -/
theorem rate_limit_backoff_not_exponential :
    (generateAnswer "some document" "what?" none
        (fun _ => .resourceExhausted)).2.1 = [(1 : ℚ), 1] ∧
    (generateAnswer "some document" "what?" none
        (fun _ => .resourceExhausted)).2.1 ≠ [(1 : ℚ) * 2 ^ 0, 1 * 2 ^ 1] := by
  have h1 : (generateAnswer "some document" "what?" none
      (fun _ => .resourceExhausted)).2.1 = [(1 : ℚ), 1] := by decide
  refine ⟨h1, ?_⟩
  rw [h1]
  simp only [ne_eq, List.cons.injEq]
  norm_num

/-- C2 (amended): when the provider rate-limits every attempt,
`generate_answer` makes exactly 3 attempts and then surfaces the
rate-limit error with HTTP 429, but the two sleeps between attempts are
the constant base delay 1.0 rather than exponential backoff: the method
body converts `ResourceExhausted` into an `AIServiceException` before the
decorator can see it, so the decorator's exponential branch never runs. -/
theorem rate_limited_retries_then_429 (doc q : String) (fn : Option String)
    (provider : Nat → ProviderOutcome)
    (hd : pyStrip doc ≠ "") (hq : pyStrip q ≠ "")
    (hp : ∀ n, provider n = .resourceExhausted) :
    generateAnswer doc q fn provider =
      (.error (.aiServiceExn "Rate limit exceeded. Please try again later." 429),
       [1, 1], 3) := by
  have hd0 : doc ≠ "" := fun hh => hd (by rw [hh]; rfl)
  have hq0 : q ≠ "" := fun hh => hq (by rw [hh]; rfl)
  have hbody : ∀ n, generateAnswerBody doc q fn (provider n) =
      (.error (.aiServiceExn "Rate limit exceeded. Please try again later." 429),
       true) := by
    intro n
    rw [hp n]
    unfold generateAnswerBody
    rw [if_neg (by simp [hd0, hd]), if_neg (by simp [hq0, hq])]
  unfold generateAnswer retryOnRateLimit
  rw [retryAux_const_error 1 _ _ 429 true hbody 0]
  rfl

/-- C2 witness: the amended behaviour at a concrete document, question
and always-rate-limiting provider. -/
theorem rate_limited_retries_then_429_witness :
    generateAnswer "d" "q?" none (fun _ => .resourceExhausted) =
      (.error (.aiServiceExn "Rate limit exceeded. Please try again later." 429),
       [1, 1], 3) :=
  rate_limited_retries_then_429 "d" "q?" none (fun _ => .resourceExhausted)
    (by decide) (by decide) (fun _ => rfl)

/-- C3 counterexample: calling `generate_answer` with an empty document
fails before any provider call, but the surfaced error carries the
`AIServiceException` default status 500, which is not a 400-class code. -/
theorem empty_document_error_is_500 :
    generateAnswer "" "hi" none (fun _ => .ok "x") =
      (.error (.aiServiceExn "Document content is empty or invalid" 500),
       [(1 : ℚ), 1], 0) ∧
    ¬(400 ≤ 500 ∧ 500 < 500) := by
  constructor
  · decide
  · decide

/-- C3 (amended): for empty or whitespace-only document content or
question, `generate_answer` makes zero provider calls — the validation
error fires before any network call on each of the three wrapper
attempts — and surfaces an `AIServiceException` with status 500 (the
class default), not a 400-class error. -/
theorem empty_input_fails_before_network (doc q : String) (fn : Option String)
    (provider : Nat → ProviderOutcome)
    (h : pyStrip doc = "" ∨ pyStrip q = "") :
    ∃ msg, generateAnswer doc q fn provider =
      (.error (.aiServiceExn msg 500), [1, 1], 0) := by
  by_cases hd : pyStrip doc = ""
  · have hbody : ∀ n, generateAnswerBody doc q fn (provider n) =
        (.error (.aiServiceExn "Document content is empty or invalid" 500),
         false) := by
      intro n
      unfold generateAnswerBody
      rw [if_pos (by simp [hd])]
    refine ⟨"Document content is empty or invalid", ?_⟩
    unfold generateAnswer retryOnRateLimit
    rw [retryAux_const_error 1 _ _ 500 false hbody 0]
    rfl
  · have hq : pyStrip q = "" := h.resolve_left hd
    have hd0 : doc ≠ "" := fun hh => hd (by rw [hh]; rfl)
    have hbody : ∀ n, generateAnswerBody doc q fn (provider n) =
        (.error (.aiServiceExn "Question cannot be empty" 500), false) := by
      intro n
      unfold generateAnswerBody
      rw [if_neg (by simp [hd0, hd]), if_pos (by simp [hq])]
    refine ⟨"Question cannot be empty", ?_⟩
    unfold generateAnswer retryOnRateLimit
    rw [retryAux_const_error 1 _ _ 500 false hbody 0]
    rfl

/-- C3 witness: a whitespace-only question at a concrete input. -/
theorem empty_input_fails_before_network_witness :
    ∃ msg, generateAnswer "content" "  " none (fun _ => .ok "x") =
      (.error (.aiServiceExn msg 500), [1, 1], 0) :=
  empty_input_fails_before_network "content" "  " none (fun _ => .ok "x")
    (Or.inr (by decide))

/-- C4: an upload whose file exceeds 16 MiB is answered with HTTP 413 (by
the `MAX_CONTENT_LENGTH` cap and the registered 413 handler, both set in
`config.py`), the store is untouched, and extraction is never attempted. -/
theorem oversized_upload_rejected_413 (st : RedisState) (contentLength : Nat)
    (env : UploadEnv) (uid : String)
    (hsz : env.file_size > maxFileSize)
    (hcl : env.file_size ≤ contentLength) :
    uploadEndpoint st contentLength env uid =
      (.failure 413 "File too large. Maximum size is 16MB.", st, false) := by
  unfold uploadEndpoint
  rw [if_pos (by simp only [maxContentLength]; simp only [maxFileSize] at hsz; omega)]

/-- C4 witness: a file one byte over the cap is rejected with 413 and no
extraction attempt. -/
theorem oversized_upload_rejected_413_witness :
    uploadEndpoint RedisState.empty (16 * 1024 * 1024 + 50)
      ⟨"fb", "big.txt", 16 * 1024 * 1024 + 1, .ok "x", "hb", "tb", none⟩
      "alice" =
      (.failure 413 "File too large. Maximum size is 16MB.",
       RedisState.empty, false) :=
  oversized_upload_rejected_413 RedisState.empty (16 * 1024 * 1024 + 50)
    ⟨"fb", "big.txt", 16 * 1024 * 1024 + 1, .ok "x", "hb", "tb", none⟩
    "alice" (by decide) (by decide)

end DocGenius
